import Mathlib

/-
Verification of the RC plane designer repository.

The repository has two source files:
  * plane_designer.py - the interactive variant (namespace Interactive below);
  * test.py           - the batch variant (namespace Batch below).

Python float arithmetic is modelled over the reals.  Division that Python
would fault on with ZeroDivisionError is modelled twice: the total functions
use real division (meaningful only away from zero denominators, which all
positivity hypotheses guarantee), and the Option-valued "run" functions
mirror the fault via fdiv, returning none exactly when Python raises.
-/

/-- Python float division: none models a ZeroDivisionError. -/
noncomputable def fdiv (a b : ℝ) : Option ℝ :=
  if b = 0 then none else some (a / b)

namespace Interactive

/-- Acceptance condition of get_float in plane_designer.py: the loop returns
val exactly when no configured bound rejects it (a none bound checks
nothing). -/
def get_float_accepts (min_val max_val : Option ℝ) (val : ℝ) : Prop :=
  ¬ ((∃ m, min_val = some m ∧ val < m) ∨ (∃ m, max_val = some m ∧ m < val))

/-- The dictionary returned by design_wing in plane_designer.py. -/
structure WingResult where
  span : ℝ
  AR : ℝ
  taper_ratio : ℝ
  wing_area : ℝ
  MAC : ℝ
  c_root : ℝ
  c_tip : ℝ

/-- design_wing from plane_designer.py, as a function of the three prompted
inputs span, AR and taper_ratio. -/
noncomputable def design_wing (span AR taper_ratio : ℝ) : WingResult :=
  let wing_area := span ^ 2 / AR
  let c_root := 2 * wing_area / (span * (1 + taper_ratio))
  let c_tip := taper_ratio * c_root
  let MAC := 4.0 * wing_area / (3.0 * span) *
    ((1 + taper_ratio + taper_ratio ^ 2) / (1 + taper_ratio) ^ 2)
  { span := span, AR := AR, taper_ratio := taper_ratio, wing_area := wing_area,
    MAC := MAC, c_root := c_root, c_tip := c_tip }

/-- design_wing with the Python evaluation order and faulting division:
wing_area, then c_root (the first place a zero denominator can occur),
then c_tip, then MAC. -/
noncomputable def design_wing_run (span AR taper_ratio : ℝ) : Option WingResult := do
  let wing_area ← fdiv (span ^ 2) AR
  let c_root ← fdiv (2 * wing_area) (span * (1 + taper_ratio))
  let c_tip := taper_ratio * c_root
  let m1 ← fdiv (4.0 * wing_area) (3.0 * span)
  let m2 ← fdiv (1 + taper_ratio + taper_ratio ^ 2) ((1 + taper_ratio) ^ 2)
  some { span := span, AR := AR, taper_ratio := taper_ratio,
         wing_area := wing_area, MAC := m1 * m2, c_root := c_root, c_tip := c_tip }

/-- One stabilizer dictionary produced by design_empennage in
plane_designer.py (control is the elevator or rudder area). -/
structure StabResult where
  S : ℝ
  span : ℝ
  root : ℝ
  tip : ℝ
  control : ℝ

/-- design_empennage from plane_designer.py, as a function of wing_area and
the prompted inputs, returning the HS and VS dictionaries. -/
noncomputable def design_empennage (wing_area percent_hs AR_hs taper_hs percent_elev
    percent_vs AR_vs taper_vs percent_rudder : ℝ) : StabResult × StabResult :=
  let S_hs := percent_hs / 100 * wing_area
  let b_hs := Real.sqrt (AR_hs * S_hs)
  let c_root_hs := 2 * S_hs / (b_hs * (1 + taper_hs))
  let c_tip_hs := taper_hs * c_root_hs
  let S_elev := percent_elev / 100 * S_hs
  let S_vs := percent_vs / 100 * wing_area
  let b_vs := Real.sqrt (AR_vs * S_vs)
  let c_root_vs := 2 * S_vs / (b_vs * (1 + taper_vs))
  let c_tip_vs := taper_vs * c_root_vs
  let S_rudder := percent_rudder / 100 * S_vs
  (⟨S_hs, b_hs, c_root_hs, c_tip_hs, S_elev⟩,
   ⟨S_vs, b_vs, c_root_vs, c_tip_vs, S_rudder⟩)

/-- The dictionary returned by cg_and_static_margin in plane_designer.py. -/
structure CGResult where
  NP_percent : ℝ
  CG_percent : ℝ
  SM_percent : ℝ
  NP_mm : ℝ
  CG_mm : ℝ

/-- cg_and_static_margin from plane_designer.py, as a function of the two
prompted percentages and the MAC argument. -/
noncomputable def cg_and_static_margin (NP_percent CG_percent MAC_mm : ℝ) : CGResult :=
  { NP_percent := NP_percent, CG_percent := CG_percent,
    SM_percent := NP_percent - CG_percent,
    NP_mm := NP_percent / 100 * MAC_mm, CG_mm := CG_percent / 100 * MAC_mm }

end Interactive

namespace Batch

/-- calc_wing_geometry from test.py: returns (S, MAC, C_root, C_tip). -/
noncomputable def calc_wing_geometry (b AR taper_ratio : ℝ) : ℝ × ℝ × ℝ × ℝ :=
  let S := b ^ 2 / AR
  let MAC := S / b
  let C_root := 2 * S / (b * (1 + taper_ratio))
  let C_tip := taper_ratio * C_root
  (S, MAC, C_root, C_tip)

/-- calc_wing_geometry with the Python evaluation order and faulting
division: S, then MAC (the first zero denominator for b = 0), then the
chords. -/
noncomputable def calc_wing_geometry_run (b AR taper_ratio : ℝ) :
    Option (ℝ × ℝ × ℝ × ℝ) := do
  let S ← fdiv (b ^ 2) AR
  let MAC ← fdiv S b
  let C_root ← fdiv (2 * S) (b * (1 + taper_ratio))
  some (S, MAC, C_root, taper_ratio * C_root)

/-- calc_tail_geometry from test.py: returns (C_root, C_tip). -/
noncomputable def calc_tail_geometry (S_tail span_tail taper_ratio : ℝ) : ℝ × ℝ :=
  let C_root := 2 * S_tail / (span_tail * (1 + taper_ratio))
  (C_root, taper_ratio * C_root)

/-- calc_aerodynamics from test.py: returns (L, D, CD). -/
noncomputable def calc_aerodynamics (rho V S CL CD0 AR e : ℝ) : ℝ × ℝ × ℝ :=
  let L := 0.5 * rho * V ^ 2 * S * CL
  let CD := CD0 + CL ^ 2 / (Real.pi * e * AR)
  let D := 0.5 * rho * V ^ 2 * S * CD
  (L, D, CD)

/-- stall_speed from test.py.  Note the body ignores CLmax. -/
noncomputable def stall_speed (W rho S CLmax : ℝ) : ℝ :=
  Real.sqrt (2 * W / (rho * S))

/-- stability from test.py: returns (SM, x_ac). -/
noncomputable def stability (MAC x_cg x_np : ℝ) : ℝ × ℝ :=
  ((x_np - x_cg) / MAC, 0.25 * MAC)

/-- tail_areas from test.py: returns (SH, SV). -/
noncomputable def tail_areas (S : ℝ) : ℝ × ℝ :=
  (0.19 * S, 0.095 * S)

/-- fuselage_dimensions from test.py: returns (Lf, Hf, Wf). -/
noncomputable def fuselage_dimensions (b : ℝ) : ℝ × ℝ × ℝ :=
  let Lf := 0.675 * b
  let Hf := 0.125 * Lf
  (Lf, Hf, 0.2 * Hf)

/-- The tail slice of main in test.py: wing geometry, tail areas, fuselage
dimensions, the tail spans b_H = 0.4*b and b_V = Hf, and the tail chords. -/
structure TailResult where
  SH : ℝ
  SV : ℝ
  b_H : ℝ
  b_V : ℝ
  C_root_H : ℝ
  C_tip_H : ℝ
  C_root_V : ℝ
  C_tip_V : ℝ

/-- main from test.py, restricted to the tail computation: the inputs are
the configuration values wingspan b (already in meters), aspect_ratio AR,
taper_ratio and the two tail taper ratios. -/
noncomputable def main_tail (b AR taper_ratio tail_taper_H tail_taper_V : ℝ) :
    TailResult :=
  let S := (calc_wing_geometry b AR taper_ratio).1
  let SH := (tail_areas S).1
  let SV := (tail_areas S).2
  let Hf := (fuselage_dimensions b).2.1
  let b_H := 0.4 * b
  let b_V := Hf
  let cH := calc_tail_geometry SH b_H tail_taper_H
  let cV := calc_tail_geometry SV b_V tail_taper_V
  ⟨SH, SV, b_H, b_V, cH.1, cH.2, cV.1, cV.2⟩

/-- A JSON scalar stored in the configuration dictionary of test.py:
the documented keys hold numbers or a string. -/
inductive Val where
  | num (x : ℚ)
  | str (s : String)
deriving DecidableEq

/-- DEFAULTS from test.py. -/
def DEFAULTS : List (String × Val) :=
  [("weight", Val.num 2.0),
   ("cl_max", Val.num 1.4),
   ("taper_ratio", Val.num 1.0),
   ("tail_taper_H", Val.num 1.0),
   ("tail_taper_V", Val.num 1.0),
   ("motor_kv", Val.num 1200),
   ("battery_voltage", Val.num 11.1),
   ("propeller", Val.str "9x4.5")]

/-- A Python dict modelled as a lookup function. -/
def Dict : Type := String → Option Val

/-- data[key] = val on the dict model. -/
def dict_set (d : Dict) (k : String) (v : Val) : Dict :=
  fun x => if x = k then some v else d x

/-- One iteration of the loop in load_input: if key not in data,
data[key] = val. -/
def fill_step (d : Dict) (kv : String × Val) : Dict :=
  if (d kv.1).isSome then d else dict_set d kv.1 kv.2

/-- load_input from test.py, applied to the parsed JSON dict: iterate over
DEFAULTS and fill every absent key. -/
def load_input (data : Dict) : Dict :=
  DEFAULTS.foldl fill_step data

end Batch

/-- Shared algebra: a trapezoid with root chord 2S/(b(1+t)) and tip chord
t times the root chord has area S, for b and 1+t nonzero. -/
theorem trapezoid_chords (S b t : ℝ) (hb : b ≠ 0) (ht : 1 + t ≠ 0) :
    b * (2 * S / (b * (1 + t)) + t * (2 * S / (b * (1 + t)))) / 2 = S := by
  field_simp
  ring

/-- C2: for positive span, aspect ratio and taper ratio, both variants
return area = span^2/AR, rootChord = 2*area/(span*(1+taper)) and
tipChord = taper*rootChord; at span=1200, AR=8, taper=0.6 the values are
180000, 187.5 and 112.5. -/
theorem C2_wing_geometry (span AR taper_ratio : ℝ)
    (h1 : 0 < span) (h2 : 0 < AR) (h3 : 0 < taper_ratio) :
    ((Interactive.design_wing span AR taper_ratio).wing_area = span ^ 2 / AR ∧
     (Interactive.design_wing span AR taper_ratio).c_root =
       2 * (span ^ 2 / AR) / (span * (1 + taper_ratio)) ∧
     (Interactive.design_wing span AR taper_ratio).c_tip =
       taper_ratio * (2 * (span ^ 2 / AR) / (span * (1 + taper_ratio))) ∧
     (Batch.calc_wing_geometry span AR taper_ratio).1 = span ^ 2 / AR ∧
     (Batch.calc_wing_geometry span AR taper_ratio).2.2.1 =
       2 * (span ^ 2 / AR) / (span * (1 + taper_ratio)) ∧
     (Batch.calc_wing_geometry span AR taper_ratio).2.2.2 =
       taper_ratio * (2 * (span ^ 2 / AR) / (span * (1 + taper_ratio)))) ∧
    ((Interactive.design_wing 1200 8 0.6).wing_area = 180000 ∧
     (Interactive.design_wing 1200 8 0.6).c_root = 187.5 ∧
     (Interactive.design_wing 1200 8 0.6).c_tip = 112.5 ∧
     (Batch.calc_wing_geometry 1200 8 0.6).1 = 180000 ∧
     (Batch.calc_wing_geometry 1200 8 0.6).2.2.1 = 187.5 ∧
     (Batch.calc_wing_geometry 1200 8 0.6).2.2.2 = 112.5) := by
  refine ⟨⟨rfl, rfl, rfl, rfl, rfl, rfl⟩, ?_⟩
  norm_num [Interactive.design_wing, Batch.calc_wing_geometry]

/-- C2 witness at the documented example input. -/
theorem C2_wing_geometry_witness :
    (0:ℝ) < 1200 ∧ (0:ℝ) < 8 ∧ (0:ℝ) < 0.6 ∧
    (Interactive.design_wing 1200 8 0.6).wing_area = 180000 :=
  ⟨by norm_num, by norm_num, by norm_num,
   (C2_wing_geometry 1200 8 0.6 (by norm_num) (by norm_num) (by norm_num)).2.1⟩

/-- C6: cg_and_static_margin returns a static margin of NP - CG percent of
MAC; at NP = 30 and CG = 25 it is exactly 5 for every MAC. -/
theorem C6_static_margin (NP_percent CG_percent MAC_mm : ℝ) :
    (Interactive.cg_and_static_margin NP_percent CG_percent MAC_mm).SM_percent =
      NP_percent - CG_percent ∧
    ∀ M : ℝ, (Interactive.cg_and_static_margin 30 25 M).SM_percent = 5 := by
  refine ⟨rfl, fun M => ?_⟩
  norm_num [Interactive.cg_and_static_margin]

/-- C8: calc_aerodynamics returns the documented lift, drag and drag
coefficient values. -/
theorem C8_aerodynamics (rho V S CL CD0 AR e : ℝ)
    (h1 : 0 < rho) (h2 : 0 < V) (h3 : 0 < S) (h4 : 0 < CL) (h5 : 0 < CD0)
    (h6 : 0 < AR) (h7 : 0 < e) (h8 : e ≤ 1) :
    Batch.calc_aerodynamics rho V S CL CD0 AR e =
      (0.5 * rho * V ^ 2 * S * CL,
       0.5 * rho * V ^ 2 * S * (CD0 + CL ^ 2 / (Real.pi * e * AR)),
       CD0 + CL ^ 2 / (Real.pi * e * AR)) := rfl

/-- C8 witness at unit inputs. -/
theorem C8_aerodynamics_witness :
    (0:ℝ) < 1 ∧ (1:ℝ) ≤ 1 ∧
    Batch.calc_aerodynamics 1 1 1 1 1 1 1 =
      (0.5 * 1 * 1 ^ 2 * 1 * 1,
       0.5 * 1 * 1 ^ 2 * 1 * (1 + 1 ^ 2 / (Real.pi * 1 * 1)),
       1 + 1 ^ 2 / (Real.pi * 1 * 1)) :=
  ⟨by norm_num, le_refl 1,
   C8_aerodynamics 1 1 1 1 1 1 1 (by norm_num) (by norm_num) (by norm_num)
     (by norm_num) (by norm_num) (by norm_num) (by norm_num) (le_refl 1)⟩

/-- C5: for every positive area, span and taper ratio, the trapezoid chord
computations of both variants satisfy area = span*(root+tip)/2: the batch
calc_tail_geometry, the interactive wing chords, and the interactive
stabilizer chords. -/
theorem C5_trapezoid_relation :
    (∀ area span taper_ratio : ℝ, 0 < area → 0 < span → 0 < taper_ratio →
      span * ((Batch.calc_tail_geometry area span taper_ratio).1 +
        (Batch.calc_tail_geometry area span taper_ratio).2) / 2 = area) ∧
    (∀ span AR taper_ratio : ℝ, 0 < span → 0 < AR → 0 < taper_ratio →
      span * ((Interactive.design_wing span AR taper_ratio).c_root +
        (Interactive.design_wing span AR taper_ratio).c_tip) / 2 =
        (Interactive.design_wing span AR taper_ratio).wing_area) ∧
    (∀ wing_area p_hs AR_hs t_hs p_e p_vs AR_vs t_vs p_r : ℝ,
      0 < wing_area → 0 < p_hs → 0 < AR_hs → 0 < t_hs →
      0 < p_vs → 0 < AR_vs → 0 < t_vs →
      ((Interactive.design_empennage wing_area p_hs AR_hs t_hs p_e p_vs AR_vs t_vs p_r).1.span *
          ((Interactive.design_empennage wing_area p_hs AR_hs t_hs p_e p_vs AR_vs t_vs p_r).1.root +
           (Interactive.design_empennage wing_area p_hs AR_hs t_hs p_e p_vs AR_vs t_vs p_r).1.tip) / 2 =
        (Interactive.design_empennage wing_area p_hs AR_hs t_hs p_e p_vs AR_vs t_vs p_r).1.S) ∧
      ((Interactive.design_empennage wing_area p_hs AR_hs t_hs p_e p_vs AR_vs t_vs p_r).2.span *
          ((Interactive.design_empennage wing_area p_hs AR_hs t_hs p_e p_vs AR_vs t_vs p_r).2.root +
           (Interactive.design_empennage wing_area p_hs AR_hs t_hs p_e p_vs AR_vs t_vs p_r).2.tip) / 2 =
        (Interactive.design_empennage wing_area p_hs AR_hs t_hs p_e p_vs AR_vs t_vs p_r).2.S)) := by
  refine ⟨?_, ?_, ?_⟩
  · intro area span t ha hs ht
    exact trapezoid_chords area span t (ne_of_gt hs) (by positivity)
  · intro span AR t hs hA ht
    exact trapezoid_chords (span ^ 2 / AR) span t (ne_of_gt hs) (by positivity)
  · intro wa p AR t pe pv ARv tv pr hwa hp hAR ht hpv hARv htv
    constructor
    · have hS : 0 < p / 100 * wa := by positivity
      have hb : Real.sqrt (AR * (p / 100 * wa)) ≠ 0 := by
        refine ne_of_gt (Real.sqrt_pos.mpr ?_)
        positivity
      exact trapezoid_chords (p / 100 * wa) (Real.sqrt (AR * (p / 100 * wa))) t hb (by positivity)
    · have hS : 0 < pv / 100 * wa := by positivity
      have hb : Real.sqrt (ARv * (pv / 100 * wa)) ≠ 0 := by
        refine ne_of_gt (Real.sqrt_pos.mpr ?_)
        positivity
      exact trapezoid_chords (pv / 100 * wa) (Real.sqrt (ARv * (pv / 100 * wa))) tv hb (by positivity)

/-- C5 witness at a concrete rectangular tail. -/
theorem C5_trapezoid_relation_witness :
    (0:ℝ) < 6 ∧ (0:ℝ) < 3 ∧ (0:ℝ) < 1 ∧
    3 * ((Batch.calc_tail_geometry 6 3 1).1 + (Batch.calc_tail_geometry 6 3 1).2) / 2 = 6 :=
  ⟨by norm_num, by norm_num, by norm_num,
   C5_trapezoid_relation.1 6 3 1 (by norm_num) (by norm_num) (by norm_num)⟩

/-- C1: for positive span, AR and taper ratio, the interactive MAC (full
trapezoidal formula) and the batch MAC (area/span) agree exactly when the
taper ratio is 1, and at taper ratio 1 each equals the root chord. -/
theorem C1_mac_refinement (span AR taper_ratio : ℝ)
    (h1 : 0 < span) (h2 : 0 < AR) (h3 : 0 < taper_ratio) :
    ((Interactive.design_wing span AR taper_ratio).MAC =
        (Batch.calc_wing_geometry span AR taper_ratio).2.1 ↔ taper_ratio = 1) ∧
    (taper_ratio = 1 →
      (Interactive.design_wing span AR taper_ratio).MAC =
        (Interactive.design_wing span AR taper_ratio).c_root ∧
      (Batch.calc_wing_geometry span AR taper_ratio).2.1 =
        (Batch.calc_wing_geometry span AR taper_ratio).2.2.1) := by
  have hs : span ≠ 0 := ne_of_gt h1
  have hA : AR ≠ 0 := ne_of_gt h2
  have ht1 : (0:ℝ) < 1 + taper_ratio := by linarith
  have ht1n : (1 + taper_ratio) ≠ 0 := ne_of_gt ht1
  simp only [Interactive.design_wing, Batch.calc_wing_geometry]
  have key : 4.0 * (span ^ 2 / AR) / (3.0 * span) *
      ((1 + taper_ratio + taper_ratio ^ 2) / (1 + taper_ratio) ^ 2) -
      (span ^ 2 / AR) / span =
      (span / AR) * (taper_ratio - 1) ^ 2 / (3 * (1 + taper_ratio) ^ 2) := by
    field_simp
    ring
  constructor
  · constructor
    · intro h
      have hz : (span / AR) * (taper_ratio - 1) ^ 2 /
          (3 * (1 + taper_ratio) ^ 2) = 0 := by
        rw [← key, h, sub_self]
      rcases div_eq_zero_iff.mp hz with h0 | h0
      · rcases mul_eq_zero.mp h0 with h0 | h0
        · exact absurd h0 (by positivity)
        · have hroot : taper_ratio - 1 = 0 :=
            (pow_eq_zero_iff (by norm_num : (2:ℕ) ≠ 0)).mp h0
          linarith
      · exact absurd h0 (by positivity)
    · intro h
      subst h
      have h0 : 4.0 * (span ^ 2 / AR) / (3.0 * span) *
          ((1 + 1 + 1 ^ 2) / (1 + 1) ^ 2) - (span ^ 2 / AR) / span = 0 := by
        rw [key]
        norm_num
      linarith
  · intro h
    subst h
    constructor
    · field_simp
      ring
    · field_simp
      ring

/-- C1 witness at a rectangular wing. -/
theorem C1_mac_refinement_witness :
    (0:ℝ) < 1200 ∧ (0:ℝ) < 8 ∧ (0:ℝ) < 1 ∧
    (Interactive.design_wing 1200 8 1).MAC = (Batch.calc_wing_geometry 1200 8 1).2.1 :=
  ⟨by norm_num, by norm_num, by norm_num,
   (C1_mac_refinement 1200 8 1 (by norm_num) (by norm_num) (by norm_num)).1.mpr rfl⟩

/-- C3 counterexample: stall_speed is not strictly decreasing in its
liftCoeffMax argument; raising CLmax from 1 to 2 at weight = density =
wingArea = 1 does not lower the result. -/
theorem C3_stall_speed_counterexample :
    ¬ (Batch.stall_speed 1 1 1 2 < Batch.stall_speed 1 1 1 1) := by
  intro h
  exact lt_irrefl (Batch.stall_speed 1 1 1 1) h

/-- C3 amended: stall_speed is strictly increasing in weight and strictly
decreasing in wingArea and density, and is constant in liftCoeffMax,
which its body never reads. -/
theorem C3_stall_speed_monotone (W rho S CLmax : ℝ)
    (hW : 0 < W) (hrho : 0 < rho) (hS : 0 < S) (hC : 0 < CLmax) :
    (∀ W2, W < W2 →
      Batch.stall_speed W rho S CLmax < Batch.stall_speed W2 rho S CLmax) ∧
    (∀ S2, S < S2 →
      Batch.stall_speed W rho S2 CLmax < Batch.stall_speed W rho S CLmax) ∧
    (∀ rho2, rho < rho2 →
      Batch.stall_speed W rho2 S CLmax < Batch.stall_speed W rho S CLmax) ∧
    (∀ c1 c2, Batch.stall_speed W rho S c1 = Batch.stall_speed W rho S c2) := by
  refine ⟨?_, ?_, ?_, fun c1 c2 => rfl⟩
  · intro W2 hlt
    simp only [Batch.stall_speed]
    apply Real.sqrt_lt_sqrt (by positivity)
    gcongr
  · intro S2 hlt
    have hS2 : 0 < S2 := hS.trans hlt
    simp only [Batch.stall_speed]
    apply Real.sqrt_lt_sqrt (by positivity)
    apply div_lt_div_of_pos_left (by positivity) (by positivity)
    exact mul_lt_mul_of_pos_left hlt hrho
  · intro rho2 hlt
    have hrho2 : 0 < rho2 := hrho.trans hlt
    simp only [Batch.stall_speed]
    apply Real.sqrt_lt_sqrt (by positivity)
    apply div_lt_div_of_pos_left (by positivity) (by positivity)
    exact mul_lt_mul_of_pos_right hlt hS

/-- C3 witness: heavier at unit density and area means a higher stall
speed. -/
theorem C3_stall_speed_monotone_witness :
    (0:ℝ) < 1 ∧ (1:ℝ) < 2 ∧ Batch.stall_speed 1 1 1 1 < Batch.stall_speed 2 1 1 1 :=
  ⟨by norm_num, by norm_num,
   (C3_stall_speed_monotone 1 1 1 1 (by norm_num) (by norm_num) (by norm_num)
     (by norm_num)).1 2 (by norm_num)⟩

/-- C4: neither variant validates the degenerate inputs.  The interactive
design_wing prompts with no bounds, so get_float accepts 0; running the
formulas at span = 0 then reaches a division by zero (the root chord), and
the batch wing geometry at aspect ratio 0 likewise faults in the area
formula, instead of an InvalidInput rejection before the arithmetic. -/
theorem C4_division_reached :
    Interactive.get_float_accepts none none 0 ∧
    Interactive.design_wing_run 0 8 0.6 = none ∧
    Batch.calc_wing_geometry_run 1200 0 1 = none := by
  refine ⟨?_, ?_, ?_⟩
  · simp [Interactive.get_float_accepts]
  · norm_num [Interactive.design_wing_run, fdiv]
  · norm_num [Batch.calc_wing_geometry_run, fdiv]

/-- C7 counterexample: in the batch run with wingspan 1 and aspect ratio 8,
the horizontal tail span is 0.4, which is not the square root of
aspectRatio times tailArea for the representative tail aspect ratio 4
(that would be the square root of 0.095). -/
theorem C7_tail_counterexample :
    (Batch.main_tail 1 8 1 1 1).b_H ≠
      Real.sqrt (4 * (Batch.main_tail 1 8 1 1 1).SH) := by
  have hSH : (Batch.main_tail 1 8 1 1 1).SH = 0.02375 := by
    norm_num [Batch.main_tail, Batch.calc_wing_geometry, Batch.tail_areas]
  have hbH : (Batch.main_tail 1 8 1 1 1).b_H = 0.4 := by
    norm_num [Batch.main_tail]
  rw [hSH, hbH]
  intro h
  have h2 : (0.4:ℝ) ^ 2 = 4 * 0.02375 := by
    rw [h]
    exact Real.sq_sqrt (by norm_num)
  norm_num at h2

/-- C7 amended: the interactive empennage satisfies tailArea =
fraction * wingArea and tailSpan = sqrt(AR * tailArea) with the trapezoid
chord formulas, while the batch variant fixes the tail areas at 19 and 9.5
percent of the wing area, takes the horizontal tail span as 0.4 times the
wingspan and the vertical tail span as the fuselage height, and only the
chords reuse the trapezoid formulas. -/
theorem C7_tail_computation (wing_area p_hs AR_hs t_hs p_e p_vs AR_vs t_vs p_r
    b AR taper_ratio tth ttv : ℝ) :
    ((Interactive.design_empennage wing_area p_hs AR_hs t_hs p_e p_vs AR_vs t_vs p_r).1.S =
        p_hs / 100 * wing_area ∧
     (Interactive.design_empennage wing_area p_hs AR_hs t_hs p_e p_vs AR_vs t_vs p_r).1.span =
        Real.sqrt (AR_hs * (p_hs / 100 * wing_area)) ∧
     (Interactive.design_empennage wing_area p_hs AR_hs t_hs p_e p_vs AR_vs t_vs p_r).1.root =
        2 * (p_hs / 100 * wing_area) /
          (Real.sqrt (AR_hs * (p_hs / 100 * wing_area)) * (1 + t_hs)) ∧
     (Interactive.design_empennage wing_area p_hs AR_hs t_hs p_e p_vs AR_vs t_vs p_r).1.tip =
        t_hs *
          (Interactive.design_empennage wing_area p_hs AR_hs t_hs p_e p_vs AR_vs t_vs p_r).1.root ∧
     (Interactive.design_empennage wing_area p_hs AR_hs t_hs p_e p_vs AR_vs t_vs p_r).2.S =
        p_vs / 100 * wing_area ∧
     (Interactive.design_empennage wing_area p_hs AR_hs t_hs p_e p_vs AR_vs t_vs p_r).2.span =
        Real.sqrt (AR_vs * (p_vs / 100 * wing_area))) ∧
    ((Batch.main_tail b AR taper_ratio tth ttv).SH = 0.19 * (b ^ 2 / AR) ∧
     (Batch.main_tail b AR taper_ratio tth ttv).SV = 0.095 * (b ^ 2 / AR) ∧
     (Batch.main_tail b AR taper_ratio tth ttv).b_H = 0.4 * b ∧
     (Batch.main_tail b AR taper_ratio tth ttv).b_V = 0.125 * (0.675 * b) ∧
     (Batch.main_tail b AR taper_ratio tth ttv).C_root_H =
        2 * (Batch.main_tail b AR taper_ratio tth ttv).SH /
          ((Batch.main_tail b AR taper_ratio tth ttv).b_H * (1 + tth)) ∧
     (Batch.main_tail b AR taper_ratio tth ttv).C_tip_H =
        tth * (Batch.main_tail b AR taper_ratio tth ttv).C_root_H ∧
     (Batch.main_tail b AR taper_ratio tth ttv).C_root_V =
        2 * (Batch.main_tail b AR taper_ratio tth ttv).SV /
          ((Batch.main_tail b AR taper_ratio tth ttv).b_V * (1 + ttv)) ∧
     (Batch.main_tail b AR taper_ratio tth ttv).C_tip_V =
        ttv * (Batch.main_tail b AR taper_ratio tth ttv).C_root_V) :=
  ⟨⟨rfl, rfl, rfl, rfl, rfl, rfl⟩, ⟨rfl, rfl, rfl, rfl, rfl, rfl, rfl, rfl⟩⟩

/-- Shared: one fill_step never changes a key that is already present. -/
theorem fill_step_preserve (d : Batch.Dict) (kv : String × Batch.Val)
    (k : String) (w : Batch.Val) (h : d k = some w) :
    Batch.fill_step d kv k = some w := by
  unfold Batch.fill_step
  by_cases hkv : (d kv.1).isSome
  · simp [hkv, h]
  · rcases eq_or_ne k kv.1 with he | he
    · exact absurd (he ▸ h ▸ rfl : (d kv.1).isSome = true) hkv
    · simp [hkv, Batch.dict_set, he, h]

/-- Shared: the whole fill loop never changes a key that is already
present. -/
theorem foldl_fill_preserve (L : List (String × Batch.Val)) (d : Batch.Dict)
    (k : String) (w : Batch.Val) (h : d k = some w) :
    L.foldl Batch.fill_step d k = some w := by
  induction L generalizing d with
  | nil => exact h
  | cons kv L ih => exact ih _ (fill_step_preserve d kv k w h)

/-- Shared: one fill_step for a different key does not touch k. -/
theorem fill_step_other (d : Batch.Dict) (kv : String × Batch.Val)
    (k : String) (h : kv.1 ≠ k) : Batch.fill_step d kv k = d k := by
  unfold Batch.fill_step
  by_cases hkv : (d kv.1).isSome
  · simp [hkv]
  · simp [hkv, Batch.dict_set, Ne.symm h]

/-- Shared: when the keys of L are distinct, the fill loop stores the listed
value at every key absent from the initial dict. -/
theorem foldl_fill_mem :
    ∀ (L : List (String × Batch.Val)) (d : Batch.Dict) (k : String) (v : Batch.Val),
      (L.map Prod.fst).Nodup → d k = none → (k, v) ∈ L →
      L.foldl Batch.fill_step d k = some v := by
  intro L
  induction L with
  | nil =>
    intro d k v _ _ hmem
    simp at hmem
  | cons kv L ih =>
    intro d k v hnd hd hmem
    simp only [List.map_cons, List.nodup_cons] at hnd
    rcases List.mem_cons.mp hmem with heq | hmem2
    · subst heq
      simp only [List.foldl_cons]
      apply foldl_fill_preserve
      unfold Batch.fill_step
      simp [hd, Batch.dict_set]
    · have hk1 : kv.1 ≠ k := by
        intro hcontra
        apply hnd.1
        rw [hcontra]
        exact List.mem_map_of_mem Prod.fst hmem2
      simp only [List.foldl_cons]
      apply ih _ _ _ hnd.2 _ hmem2
      rw [fill_step_other d kv k hk1]
      exact hd

/-- C9: load_input maps every documented key to its input value when one was
given and to the documented default otherwise; a missing key is filled, not
an error. -/
theorem C9_defaults_filled (data : Batch.Dict) (k : String) (v : Batch.Val)
    (hk : (k, v) ∈ Batch.DEFAULTS) :
    Batch.load_input data k = some ((data k).getD v) := by
  cases hdk : data k with
  | some w =>
    simp only [Option.getD_some]
    exact foldl_fill_preserve Batch.DEFAULTS data k w hdk
  | none =>
    simp only [Option.getD_none]
    exact foldl_fill_mem Batch.DEFAULTS data k v (by decide) hdk hk

/-- C9 witness: on an empty configuration the motor_kv key is filled with
its default. -/
theorem C9_defaults_filled_witness :
    ("motor_kv", Batch.Val.num 1200) ∈ Batch.DEFAULTS ∧
    Batch.load_input (fun _ => none) "motor_kv" = some (Batch.Val.num 1200) :=
  ⟨by decide,
   C9_defaults_filled (fun _ => none) "motor_kv" (Batch.Val.num 1200) (by decide)⟩

/-- C10: load_input never overwrites or removes a key the input already
binds, including keys of the defaults table. -/
theorem C10_input_preserved (data : Batch.Dict) (k : String) (w : Batch.Val)
    (h : data k = some w) : Batch.load_input data k = some w :=
  foldl_fill_preserve Batch.DEFAULTS data k w h

/-- C10 witness: a user-supplied weight of 5 survives load_input even though
weight has a default. -/
theorem C10_input_preserved_witness :
    (fun x : String => if x = "weight" then some (Batch.Val.num 5) else none) "weight" =
      some (Batch.Val.num 5) ∧
    Batch.load_input
      (fun x : String => if x = "weight" then some (Batch.Val.num 5) else none) "weight" =
      some (Batch.Val.num 5) :=
  ⟨by simp,
   C10_input_preserved
     (fun x : String => if x = "weight" then some (Batch.Val.num 5) else none)
     "weight" (Batch.Val.num 5) (by simp)⟩
